import Mathlib

/-!
Shallow embedding of LXSMNSYC/react-context's reducer-context module
(`src/reducer-context.tsx`) and its `MissingStateContextError`
(`src/unnamed/part_000`), together with theorems settling the claims
about them.

The module `src/hooked-context.tsx` is imported by `reducer-context.tsx`
but is not among the provided sources, so the behaviour of
`createHookedContext` (the stored context slot, the hooks `useValue`,
`useSelectedValue`, `useSelectedValues`, the provider's mounting of the
supplied hook, and the `displayName` field) is modelled from the spec:
the hooked context holds a single value in the host framework's context
slot, the hooks read it (applying the given selector where there is
one), and mounting a provider runs the factory-supplied hook on the
provider's props to create that value.

React itself (`useReducer`, `useCallback`, `useMemo`) is an external
collaborator the spec declares unmodifiable; `useCallback` and `useMemo`
are pure memoisations and are embedded as the identity on the wrapped
computation, while the dispatch transition of `useReducer` is modelled
from the spec sentence "mutated by dispatched actions (processed through
a reducer function supplied at factory-creation time)".
-/

universe u v w

/-- JavaScript optional value: a value that may be `undefined`, `null`,
or an actual value. This models props such as `value?: State`, which at
runtime can be absent (undefined), explicitly `null`, or present. -/
inductive JSVal (α : Type u) where
  | undef
  | null
  | val (a : α)

/-- JavaScript nullish coalescing `x ?? d`: yields `d` exactly when `x`
is `undefined` or `null`, and the value of `x` otherwise. -/
def JSVal.nullishCoalesce {α : Type u} : JSVal α → α → α
  | .undef, d => d
  | .null, d => d
  | .val a, _ => a

/-- The context value tuple `[State, Dispatch<Action>]` stored in the
hooked context (`src/reducer-context.tsx`, line 58:
`type ContextValue<State, Action> = [State, Dispatch<Action>]`).
`state` is position 0 of the tuple and `dispatch` is position 1; the
dispatch function is kept abstract as a value of a type `D`. -/
structure ContextValue (State : Type u) (D : Type v) where
  state : State
  dispatch : D

/-- Modelled from the spec: `createHookedContext` comes from
`src/hooked-context.tsx`, which is not among the provided sources.
Per the spec (section 3), the only persistent entity is the pairing
held inside the host framework's context slot, so a hooked context is
its stored value of type `T` together with the mutable `displayName`
field (`string | undefined`) that the reducer-context interface
delegates to. -/
structure HookedContext (T : Type u) where
  value : T
  displayName : Option String

/-- Modelled from the spec: `HookedContext.useValue` reads the current
context value from the host framework's context slot. -/
def HookedContext.useValue {T : Type u} (c : HookedContext T) : T :=
  c.value

/-- Modelled from the spec: `HookedContext.useSelectedValue` subscribes
to a derived slice of the stored value, returning the selector applied
to the current context value. -/
def HookedContext.useSelectedValue {T : Type u} {R : Type v}
    (c : HookedContext T) (selector : T → R) : R :=
  selector c.value

/-- Modelled from the spec: `HookedContext.useSelectedValues` is the
array-selector variant of `useSelectedValue`; it likewise returns the
selector applied to the current context value. -/
def HookedContext.useSelectedValues {T : Type u} {R : Type v}
    (c : HookedContext T) (selector : T → R) : R :=
  selector c.value

/-- The arguments fixed at factory-creation time by
`createReducerContext<State, Action>(reducer, defaultValue)`
(`src/reducer-context.tsx`, lines 74-77). -/
structure ReducerContextFactory (State : Type u) (Action : Type v) where
  reducer : State → Action → State
  defaultValue : State

/-- The props of the generated `Provider`
(`ReducerContextProviderProps`, lines 34-37): an optional `value` and
`children` of an abstract type `C`. -/
structure ReducerContextProviderProps (State : Type u) (C : Type v) where
  value : JSVal State
  children : C

/-- The initial state computed by the hook passed to
`createHookedContext` (lines 81-85):
`({ value }) => useReducer(reducer, value ?? defaultValue)` initialises
the reducer state to `value ?? defaultValue`. -/
def ReducerContextFactory.hookInit {State : Type u} {Action : Type v} {C : Type w}
    (F : ReducerContextFactory State Action)
    (props : ReducerContextProviderProps State C) : State :=
  props.value.nullishCoalesce F.defaultValue

/-- Modelled from the spec: the dispatch transition of React's
`useReducer` as instantiated at lines 81-85. Dispatching an action `a`
while the stored pair is `cell` processes the action through the
factory's reducer, replacing the state component with
`reducer(cell.state, a)`; the dispatch function is stable across
transitions, so that component is carried over unchanged. -/
def ReducerContextFactory.dispatchStep {State : Type u} {Action : Type v} {D : Type w}
    (F : ReducerContextFactory State Action)
    (cell : ContextValue State D) (a : Action) : ContextValue State D :=
  ⟨F.reducer cell.state a, cell.dispatch⟩

/-- Modelled from the spec: mounting the generated `Provider`
(lines 147-155) renders `InternalContext.Provider` with the same
`value` prop, which runs the factory's hook on the props to create the
stored pair: the state is `hookInit props` and the dispatch function is
the fresh stable dispatch `d` created by the host framework. `dn` is
the context's current `displayName`. -/
def ReducerContextFactory.mountProvider {State : Type u} {Action : Type v}
    {C : Type w} {D : Type w}
    (F : ReducerContextFactory State Action)
    (props : ReducerContextProviderProps State C) (d : D)
    (dn : Option String) : HookedContext (ContextValue State D) :=
  ⟨⟨F.hookInit props, d⟩, dn⟩

namespace createReducerContext

/-- `useState` (lines 87-89): returns `InternalContext.useValue()`, the
stored `[State, Dispatch<Action>]` pair. -/
def useState {State : Type u} {D : Type v}
    (c : HookedContext (ContextValue State D)) : ContextValue State D :=
  c.useValue

/-- `useValue` (lines 91-97): selects position 0 of the stored pair via
the internal selector `([next]) => next` passed to
`InternalContext.useSelectedValue`. -/
def useValue {State : Type u} {D : Type v}
    (c : HookedContext (ContextValue State D)) : State :=
  c.useSelectedValue fun p => p.state

/-- `useDispatch` (lines 99-105): selects position 1 of the stored pair
via the internal selector `([, dispatch]) => dispatch` passed to
`InternalContext.useSelectedValue`. -/
def useDispatch {State : Type u} {D : Type v}
    (c : HookedContext (ContextValue State D)) : D :=
  c.useSelectedValue fun p => p.dispatch

/-- `useSelectedState` (lines 107-113): the internal selector
`([next, dispatch]) => [selector(next), dispatch]` passed to
`InternalContext.useSelectedValues`. -/
def useSelectedState {State : Type u} {D : Type v} {R : Type w}
    (c : HookedContext (ContextValue State D)) (selector : State → R) :
    ContextValue R D :=
  c.useSelectedValues fun p => ⟨selector p.state, p.dispatch⟩

/-- `useSelectedValue` (lines 115-121): the internal selector
`([next]) => selector(next)` passed to
`InternalContext.useSelectedValue`. -/
def useSelectedValue {State : Type u} {D : Type v} {R : Type w}
    (c : HookedContext (ContextValue State D)) (selector : State → R) : R :=
  c.useSelectedValue fun p => selector p.state

/-- `useSelectedValues` (lines 139-145): the internal selector
`([next]) => selector(next)` passed to
`InternalContext.useSelectedValues`. -/
def useSelectedValues {State : Type u} {D : Type v} {R : Type w}
    (c : HookedContext (ContextValue State D)) (selector : State → R) : R :=
  c.useSelectedValues fun p => selector p.state

/-- `useSelectedStates` (lines 123-137). The internal selector
`([next, dispatch]) => [dispatch, ...selector(next)]` prepends the
dispatch function to the selected array; the result of
`InternalContext.useSelectedValues` is then split by the destructuring
`const [dispatch, ...states] = values` and returned as
`[states as R, dispatch]`. The selected array is embedded as a
`List V` with the dispatch function a value of the same element type
`V` (a JavaScript array is untyped). JavaScript destructuring of a
possibly-empty array binds `dispatch` to `undefined` when the array is
empty, hence the first element is read with `head?` (the empty case is
never reached, since the internal selector always yields a non-empty
array). -/
def useSelectedStates {State : Type u} {V : Type v}
    (c : HookedContext (ContextValue State V))
    (selector : State → List V) : List V × Option V :=
  let values := c.useSelectedValues fun p => p.dispatch :: selector p.state
  (values.tail, values.head?)

/-- `Consumer` (lines 157-163): reads `useState()` and passes the state
and the dispatch function, unmodified, to the children render
function. -/
def Consumer {State : Type u} {D : Type v} {J : Type w}
    (c : HookedContext (ContextValue State D))
    (children : State → D → J) : J :=
  let p := useState c
  children p.state p.dispatch

/-- `Selector` (lines 165-171): reads `useSelectedState(selector)` and
passes the selected state and the dispatch function to the children
render function. -/
def Selector {State : Type u} {D : Type v} {R : Type w} {J : Type w}
    (c : HookedContext (ContextValue State D)) (selector : State → R)
    (children : R → D → J) : J :=
  let p := useSelectedState c selector
  children p.state p.dispatch

/-- `Selectors` (lines 173-179): reads `useSelectedStates(selector)`
and passes the selected states and the dispatch function to the
children render function. -/
def Selectors {State : Type u} {V : Type v} {J : Type w}
    (c : HookedContext (ContextValue State V))
    (selector : State → List V)
    (children : List V → Option V → J) : J :=
  let p := useSelectedStates c selector
  children p.1 p.2

/-- The `displayName` setter of the returned interface object
(lines 187-189): `set displayName(value) { InternalContext.displayName
= value; }` writes the internal context's field. -/
def setDisplayName {T : Type u} (c : HookedContext T)
    (v : Option String) : HookedContext T :=
  { c with displayName := v }

/-- The `displayName` getter of the returned interface object
(lines 190-192): `get displayName() { return
InternalContext.displayName; }` reads the internal context's field. -/
def getDisplayName {T : Type u} (c : HookedContext T) : Option String :=
  c.displayName

end createReducerContext

namespace MissingStateContextError

/-- JavaScript template-literal interpolation of a
`string | undefined`: a present string interpolates as itself and
`undefined` interpolates as the text "undefined". -/
def jsInterp : Option String → String
  | some s => s
  | none => "undefined"

/-- The literal text of the template before the interpolated
`displayName` (`src/unnamed/part_000`, lines 3-4). -/
def msgHead : String :=
  "\n      Attempt to read value from state context \x27"

/-- The literal text between the interpolated `displayName` and the
instruction sentence (line 4 of the template, after the closing
quote). -/
def msgMid : String := "\x27,\n      "

/-- The instruction sentence of the message (lines 5-6 of the
template). -/
def instructionText : String :=
  "make sure that the context provider is being used and is mounted"

/-- The literal text after the instruction sentence (lines 6-7 of the
template). -/
def msgEnd : String := "\n      in the component tree.\n    "

/-- The message built by the `MissingStateContextError` constructor
(`src/unnamed/part_000`, lines 2-8): the template literal passed to
`super`, with `displayName` interpolated. Concatenating the pieces
reproduces the template character for character. -/
def message (displayName : Option String) : String :=
  msgHead ++ jsInterp displayName ++ msgMid ++ instructionText ++ msgEnd

end MissingStateContextError

/-- Claim C1: for every state `s` and action `a`, dispatching `a` while
the stored state is `s` replaces the stored state with
`reducer(s, a)`, where `reducer` is the function supplied to
`createReducerContext` at factory-creation time; the dispatch-function
component of the stored pair is unchanged by the transition. -/
theorem dispatchStep_updates_state_preserves_dispatch
    {State : Type u} {Action : Type v} {D : Type w}
    (F : ReducerContextFactory State Action)
    (cell : ContextValue State D) (a : Action) :
    (F.dispatchStep cell a).state = F.reducer cell.state a ∧
    (F.dispatchStep cell a).dispatch = cell.dispatch :=
  ⟨rfl, rfl⟩

/-- Claim C2: for every pair `(s, d)` held in the internal hooked
context, `useState()` returns exactly the pair, `useValue()` returns
its first component `s`, and `useDispatch()` returns its second
component `d`. -/
theorem useState_useValue_useDispatch_project_stored_pair
    {State : Type u} {D : Type v}
    (c : HookedContext (ContextValue State D)) :
    createReducerContext.useState c = c.value ∧
    createReducerContext.useValue c = c.value.state ∧
    createReducerContext.useDispatch c = c.value.dispatch :=
  ⟨rfl, rfl, rfl⟩

/-- Claim C3: for every selector `f` and current state `s`,
`useSelectedValue(f)` returns `f(s)`, equals `f` applied to the value
returned by `useValue()`, and at the identity selector returns the
whole state. -/
theorem useSelectedValue_applies_selector_to_state
    {State : Type u} {D : Type v} {R : Type w}
    (c : HookedContext (ContextValue State D)) (f : State → R) :
    createReducerContext.useSelectedValue c f = f c.value.state ∧
    createReducerContext.useSelectedValue c f
      = f (createReducerContext.useValue c) ∧
    createReducerContext.useSelectedValue c (fun s => s)
      = createReducerContext.useValue c :=
  ⟨rfl, rfl, rfl⟩

/-- Claim C4: for every selector `f` returning an array and every
stored pair `(s, d)`, `useSelectedStates(f)` returns the pair
`[f(s), d]`: prepending the dispatch function inside the internal
selector and splitting the combined array back is a round-trip that
loses no element of `f(s)` and preserves its order (the dispatch
component is `some d`, the `Option` recording that JavaScript
destructuring of an empty array would have produced `undefined`). -/
theorem useSelectedStates_roundtrip
    {State : Type u} {V : Type v}
    (c : HookedContext (ContextValue State V)) (f : State → List V) :
    createReducerContext.useSelectedStates c f
      = (f c.value.state, some c.value.dispatch) :=
  rfl

/-- Claim C5: when the `Provider` mounts with a `value` prop supplied,
the reducer state is initialised to that value; when the `value` prop
is absent (undefined), the state is initialised to the `defaultValue`
given to `createReducerContext`. -/
theorem mountProvider_initial_state
    {State : Type u} {Action : Type v} {C : Type w} {D : Type w}
    (F : ReducerContextFactory State Action) (v : State) (ch : C)
    (d : D) (dn : Option String) :
    (F.mountProvider ⟨JSVal.val v, ch⟩ d dn).value.state = v ∧
    (F.mountProvider ⟨JSVal.undef, ch⟩ d dn).value.state
      = F.defaultValue :=
  ⟨rfl, rfl⟩

/-- Claim C6: for every stored pair `(s, d)`, rendering `Consumer` with
a children render function `c` produces exactly `c(s, d)`. -/
theorem consumer_renders_children_on_state_and_dispatch
    {State : Type u} {D : Type v} {J : Type w}
    (ctx : HookedContext (ContextValue State D))
    (children : State → D → J) :
    createReducerContext.Consumer ctx children
      = children ctx.value.state ctx.value.dispatch :=
  rfl

/-- Claim C7: for every selector `f`, children render function `ch`,
and stored pair `(s, d)`, rendering `Selector` with those props
produces exactly `ch(f(s), d)`, and `useSelectedState(f)` on which it
is built returns the pair `[f(s), d]`. -/
theorem selector_renders_children_on_selected_state
    {State : Type u} {D : Type v} {R : Type w} {J : Type w}
    (ctx : HookedContext (ContextValue State D)) (f : State → R)
    (ch : R → D → J) :
    createReducerContext.Selector ctx f ch
      = ch (f ctx.value.state) ctx.value.dispatch ∧
    createReducerContext.useSelectedState ctx f
      = ⟨f ctx.value.state, ctx.value.dispatch⟩ :=
  ⟨rfl, rfl⟩

/-- Claim C8: for every string `v`, setting the `displayName` property
of the object returned by `createReducerContext` and then reading it
back returns `v`: setter and getter delegate to the same internal
context field. -/
theorem displayName_set_then_get
    {T : Type u} (c : HookedContext T) (v : String) :
    createReducerContext.getDisplayName
      (createReducerContext.setDisplayName c (some v)) = some v :=
  rfl

/-- Claim C9: if the `Provider` `value` prop is `null` (not only when
it is `undefined`), the reducer state is initialised to the factory's
`defaultValue`, because initialisation uses nullish coalescing
`value ?? defaultValue`. -/
theorem mountProvider_null_value_uses_default
    {State : Type u} {Action : Type v} {C : Type w} {D : Type w}
    (F : ReducerContextFactory State Action) (ch : C) (d : D)
    (dn : Option String) :
    (F.mountProvider ⟨JSVal.null, ch⟩ d dn).value.state
      = F.defaultValue :=
  rfl

/-- Claim C10: for every string `d`, the message of
`MissingStateContextError(d)` contains the context name `d` and the
instruction that the context provider must be used and mounted in the
component tree (both stated as infixes of the message's character
list). -/
theorem missingStateContextError_message_contains_name_and_instruction
    (d : String) :
    d.data <:+: (MissingStateContextError.message (some d)).data ∧
    MissingStateContextError.instructionText.data
      <:+: (MissingStateContextError.message (some d)).data ∧
    "in the component tree".data
      <:+: (MissingStateContextError.message (some d)).data := by
  refine ⟨?_, ?_, ?_⟩
  · refine ⟨MissingStateContextError.msgHead.data,
      (MissingStateContextError.msgMid
        ++ MissingStateContextError.instructionText
        ++ MissingStateContextError.msgEnd).data, ?_⟩
    simp [MissingStateContextError.message, MissingStateContextError.jsInterp,
      String.data_append, List.append_assoc]
  · refine ⟨(MissingStateContextError.msgHead ++ d
        ++ MissingStateContextError.msgMid).data,
      MissingStateContextError.msgEnd.data, ?_⟩
    simp [MissingStateContextError.message, MissingStateContextError.jsInterp,
      String.data_append, List.append_assoc]
  · refine ⟨(MissingStateContextError.msgHead ++ d
        ++ MissingStateContextError.msgMid
        ++ MissingStateContextError.instructionText ++ "\n      ").data,
      ".\n    ".data, ?_⟩
    simp [MissingStateContextError.message, MissingStateContextError.jsInterp,
      MissingStateContextError.msgEnd,
      String.data_append, List.append_assoc]
